import Mathlib

/-!
# Shallow embedding of `PixiTileGrid` (src/src/PixiTileGrid.ts)

The repository is a single class `PixiTileGrid extends PIXI.Container`.
Its constructor validates the options, then `_initializeLayers` sorts the
layer definitions by `zIndex` (default 0, stable JavaScript `Array.sort`),
creates one child container per layer, registers each container in a
name-keyed `Map` (last write wins), renders the layer's grid into the
container via `_renderLayer` / `_createTileSprite`, and appends the
container to the root.

The embedding below mirrors that code:

* JavaScript `undefined` becomes `Option`; a possibly-absent field of the
  options object is an `Option` field.
* A layer's `data : number[][]` is `Option (List (Option (List (Option Int))))`:
  the outer `Option` models an absent `data`, the inner ones model sparse-array
  holes (`!rowData` / `tileIndex === undefined` checks in the source).
* `console.warn` calls become structured `Warning` values collected in order.
* Every texture lookup performed against `spriteSheet.textures` is recorded
  in a `lookups` trace, so that "this cell is skipped without a texture
  lookup" is a statement about the embedding, not about missing
  instrumentation.
* `throw new Error(...)` becomes `Except.error` of a `ConfigurationError`
  value whose `message` is the exact string thrown by the source.
-/

namespace PixiTileGrid

/-- A texture handle from the sprite sheet.  The native dimensions are
carried so that "the sprite's size is forced to the cell size regardless of
the texture's native resolution" is a non-vacuous statement. -/
structure Texture where
  id : Nat
  natWidth : Int
  natHeight : Int
deriving Repr, DecidableEq

/-- The observable state of a `PIXI.Sprite` as configured by
`_createTileSprite`: bound texture, position, and explicit size override. -/
structure Sprite where
  texture : Texture
  x : Int
  y : Int
  width : Int
  height : Int
deriving Repr, DecidableEq

/-- A layer container (`PIXI.Container` with `label`, `zIndex` and a list of
sprite children). -/
structure Container where
  label : String
  zIndex : Int
  children : List Sprite
deriving Repr, DecidableEq

/-- `LayerDefinition` from the source.  `zIndex` is optional; `data` is a
2D array of tile indices, with `Option` layers modelling `undefined`. -/
structure LayerDefinition where
  name : String
  zIndex : Option Int := none
  data : Option (List (Option (List (Option Int)))) := none
deriving Repr

/-- The sprite sheet: an opaque string-keyed texture mapping
(`spriteSheet.textures[textureKey]`). -/
structure SpriteSheet where
  textures : String → Option Texture

/-- `TileGridOptions` from the source.  Required-by-contract fields are
still `Option` here because the constructor explicitly guards against their
absence at runtime. -/
structure TileGridOptions where
  mapData : Option (List LayerDefinition) := none
  spriteSheet : Option SpriteSheet := none
  tileWidth : Option Int := none
  tileHeight : Option Int := none
  tileToIdTextureKey : Option (Int → String) := none
  chunkSize : Option Int := none
  cullingMargin : Option Int := none

/-- The four `throw new Error(...)` sites of the constructor. -/
inductive ConfigurationError where
  | mapDataRequired
  | spriteSheetRequired
  | tileWidthMustBePositive
  | tileHeightMustBePositive
deriving Repr, DecidableEq

/-- The exact message string thrown by the source at each site. -/
def ConfigurationError.message : ConfigurationError → String
  | .mapDataRequired => "PixiTileGrid: mapData is required and must contain at least one layer"
  | .spriteSheetRequired => "PixiTileGrid: spriteSheet is required"
  | .tileWidthMustBePositive => "tileWidth must be positive"
  | .tileHeightMustBePositive => "tileHeight must be positive"

/-- The two `console.warn` sites, kept structured so that a diagnostic's
content (layer name, computed key, original tile index) is inspectable. -/
inductive Warning where
  | layerHasNoTileData (layerName : String)
  | textureNotFound (key : String) (tileIndex : Int)
deriving Repr, DecidableEq

/-- The exact `console.warn` message for each warning. -/
def Warning.message : Warning → String
  | .layerHasNoTileData n => "PixiTileGrid: Layer \"" ++ n ++ "\" has no tile data"
  | .textureNotFound k t =>
      "PixiTileGrid: Texture not found for key \"" ++ k ++ "\" (tile index: " ++ toString t ++ ")"

/-- The layer's effective z-index: `layerDef.zIndex ?? 0`. -/
def LayerDefinition.zIndexEff (l : LayerDefinition) : Int :=
  l.zIndex.getD 0

/-- The comparison the sort uses: ascending effective `zIndex`
(`(a, b) => (a.zIndex ?? 0) - (b.zIndex ?? 0)`). -/
def layerLe (a b : LayerDefinition) : Prop :=
  a.zIndexEff ≤ b.zIndexEff

instance : DecidableRel layerLe := fun a b => Int.decLe a.zIndexEff b.zIndexEff

instance : IsTotal LayerDefinition layerLe := ⟨fun a b => Int.le_total a.zIndexEff b.zIndexEff⟩

instance : IsTrans LayerDefinition layerLe := ⟨fun _ _ _ => Int.le_trans⟩

/-- `[...this._options.mapData].sort(cmp)`: JavaScript `Array.sort` is
guaranteed stable, so insertion sort by the same key is the unique
function matching it. -/
def sortLayers (layers : List LayerDefinition) : List LayerDefinition :=
  List.insertionSort layerLe layers

/-- The key computed by `_createTileSprite`: the custom
`tileToIdTextureKey` when configured, else `tileIndex.toString()`. -/
def textureKeyFor (keyFn : Option (Int → String)) (tileIndex : Int) : String :=
  match keyFn with
  | some f => f tileIndex
  | none => toString tileIndex

/-- Result of rendering: sprites produced, warnings emitted, and the trace
of texture keys looked up in the sprite sheet, each in program order. -/
structure RenderResult where
  sprites : List Sprite
  warnings : List Warning
  lookups : List String
deriving Repr, DecidableEq

/-- Sequencing of two render steps. -/
def RenderResult.merge (a b : RenderResult) : RenderResult :=
  ⟨a.sprites ++ b.sprites, a.warnings ++ b.warnings, a.lookups ++ b.lookups⟩

/-- `_createTileSprite(tileIndex, col, row)`: compute the key, look it up,
warn and return `none` on a miss, otherwise build the sprite at
`(col * tileWidth, row * tileHeight)` with size overridden to the cell
size. -/
def createTileSprite (keyFn : Option (Int → String)) (sheet : SpriteSheet)
    (tw th : Int) (tileIndex : Int) (col row : Nat) :
    Option Sprite × List Warning × List String :=
  let textureKey := textureKeyFor keyFn tileIndex
  match sheet.textures textureKey with
  | none => (none, [Warning.textureNotFound textureKey tileIndex], [textureKey])
  | some texture =>
      (some { texture := texture
              x := (col : Int) * tw
              y := (row : Int) * th
              width := tw
              height := th },
       [], [textureKey])

/-- The inner column loop of `_renderLayer`: walk one row's cells from
column `col`, skipping `0` and `undefined` entries before any lookup. -/
def renderCells (keyFn : Option (Int → String)) (sheet : SpriteSheet)
    (tw th : Int) (row : Nat) : Nat → List (Option Int) → RenderResult
  | _, [] => ⟨[], [], []⟩
  | col, cell :: rest =>
    let tail := renderCells keyFn sheet tw th row (col + 1) rest
    match cell with
    | none => tail
    | some tileIndex =>
      if tileIndex = 0 then tail
      else
        match createTileSprite keyFn sheet tw th tileIndex col row with
        | (some s, ws, ks) => ⟨s :: tail.sprites, ws ++ tail.warnings, ks ++ tail.lookups⟩
        | (none, ws, ks) => ⟨tail.sprites, ws ++ tail.warnings, ks ++ tail.lookups⟩

/-- The outer row loop of `_renderLayer`: rows in index order, an absent
row (`!rowData`) skipped entirely. -/
def renderRows (keyFn : Option (Int → String)) (sheet : SpriteSheet)
    (tw th : Int) : Nat → List (Option (List (Option Int))) → RenderResult
  | _, [] => ⟨[], [], []⟩
  | row, r :: rest =>
    let tail := renderRows keyFn sheet tw th (row + 1) rest
    match r with
    | none => tail
    | some rowData => (renderCells keyFn sheet tw th row 0 rowData).merge tail

/-- `_renderLayer(container, layerDef)`: warn and skip when `data` is
absent or has zero rows, otherwise walk the grid. -/
def renderLayer (keyFn : Option (Int → String)) (sheet : SpriteSheet)
    (tw th : Int) (layerDef : LayerDefinition) : RenderResult :=
  match layerDef.data with
  | none => ⟨[], [Warning.layerHasNoTileData layerDef.name], []⟩
  | some data =>
    if data.length = 0 then ⟨[], [Warning.layerHasNoTileData layerDef.name], []⟩
    else renderRows keyFn sheet tw th 0 data

/-- One iteration of the `_initializeLayers` loop body for a layer: the
container (label `"Layer: " + name`, `zIndex ?? 0`, rendered children)
together with the render's side channel. -/
def mkLayerContainer (keyFn : Option (Int → String)) (sheet : SpriteSheet)
    (tw th : Int) (l : LayerDefinition) : Container × RenderResult :=
  let r := renderLayer keyFn sheet tw th l
  ({ label := "Layer: " ++ l.name, zIndex := l.zIndexEff, children := r.sprites }, r)

/-- The container built for one layer. -/
def layerContainer (keyFn : Option (Int → String)) (sheet : SpriteSheet)
    (tw th : Int) (l : LayerDefinition) : Container :=
  (mkLayerContainer keyFn sheet tw th l).1

/-- `this._layers.set(name, container)`: a JavaScript `Map` overwrites the
(unique) existing entry for the key in place and appends a fresh key at the
end. -/
def mapSet : List (String × Container) → String → Container → List (String × Container)
  | [], k, v => [(k, v)]
  | p :: rest, k, v => if p.1 = k then (k, v) :: rest else p :: mapSet rest k v

/-- `this._layers.get(name)`. -/
def mapGet : List (String × Container) → String → Option Container
  | [], _ => none
  | p :: rest, k => if p.1 = k then some p.2 else mapGet rest k

/-- The root's children after `_initializeLayers`: one container per layer,
appended in sorted order. -/
def rootChildren (keyFn : Option (Int → String)) (sheet : SpriteSheet)
    (tw th : Int) (layers : List LayerDefinition) : List Container :=
  (sortLayers layers).map (layerContainer keyFn sheet tw th)

/-- The name-keyed `_layers` map after `_initializeLayers`. -/
def layersLookup (keyFn : Option (Int → String)) (sheet : SpriteSheet)
    (tw th : Int) (layers : List LayerDefinition) : List (String × Container) :=
  (sortLayers layers).foldl
    (fun m l => mapSet m l.name (layerContainer keyFn sheet tw th l)) []

/-- All warnings emitted while initializing the layers, in program order. -/
def allWarnings (keyFn : Option (Int → String)) (sheet : SpriteSheet)
    (tw th : Int) (layers : List LayerDefinition) : List Warning :=
  (sortLayers layers).foldr
    (fun l acc => (mkLayerContainer keyFn sheet tw th l).2.warnings ++ acc) []

/-- The observable state of a fully constructed `PixiTileGrid`. -/
structure Grid where
  tileWidth : Int
  tileHeight : Int
  chunkSize : Int
  cullingMargin : Int
  layersMap : List (String × Container)
  children : List Container
  sortableChildren : Bool

/-- The constructor's validation sequence, in source order; `none` means
validation passes.  `!options.tileWidth || options.tileWidth <= 0` rejects
an absent, zero (falsy), or negative width, and likewise for the height. -/
def validate (o : TileGridOptions) : Option ConfigurationError :=
  match o.mapData with
  | none => some .mapDataRequired
  | some layers =>
    if layers.isEmpty then some .mapDataRequired
    else
      match o.spriteSheet with
      | none => some .spriteSheetRequired
      | some _ =>
        match o.tileWidth with
        | none => some .tileWidthMustBePositive
        | some tw =>
          if tw ≤ 0 then some .tileWidthMustBePositive
          else
            match o.tileHeight with
            | none => some .tileHeightMustBePositive
            | some th =>
              if th ≤ 0 then some .tileHeightMustBePositive
              else none

/-- `new PixiTileGrid(options)`: validate in source order, then store the
options (chunk size defaulting to 16, culling margin to 2), then build the
full layer tree.  An `Except.error` is a thrown `ConfigurationError`. -/
def construct (o : TileGridOptions) : Except ConfigurationError (Grid × List Warning) :=
  match o.mapData with
  | none => .error .mapDataRequired
  | some layers =>
    if layers.isEmpty then .error .mapDataRequired
    else
      match o.spriteSheet with
      | none => .error .spriteSheetRequired
      | some sheet =>
        match o.tileWidth with
        | none => .error .tileWidthMustBePositive
        | some tw =>
          if tw ≤ 0 then .error .tileWidthMustBePositive
          else
            match o.tileHeight with
            | none => .error .tileHeightMustBePositive
            | some th =>
              if th ≤ 0 then .error .tileHeightMustBePositive
              else
                .ok ({ tileWidth := tw
                       tileHeight := th
                       chunkSize := o.chunkSize.getD 16
                       cullingMargin := o.cullingMargin.getD 2
                       layersMap := layersLookup o.tileToIdTextureKey sheet tw th layers
                       children := rootChildren o.tileToIdTextureKey sheet tw th layers
                       sortableChildren := true },
                     allWarnings o.tileToIdTextureKey sheet tw th layers)

/-! ## Helper lemmas -/

/-- `construct` throws exactly the error that `validate` reports. -/
lemma construct_error_iff (o : TileGridOptions) (e : ConfigurationError) :
    construct o = .error e ↔ validate o = some e := by
  obtain ⟨md, ss, tw, th, fn, a, b⟩ := o
  unfold construct validate
  dsimp only
  cases md with
  | none => simp
  | some layers =>
    cases ss <;> cases tw <;> cases th <;> repeat' split <;> simp_all

/-- `construct` succeeds exactly when `validate` passes. -/
lemma construct_ok_iff (o : TileGridOptions) :
    (∃ gw, construct o = .ok gw) ↔ validate o = none := by
  obtain ⟨md, ss, tw, th, fn, a, b⟩ := o
  unfold construct validate
  dsimp only
  cases md with
  | none => simp
  | some layers =>
    cases ss <;> cases tw <;> cases th <;> repeat' split <;> simp_all

/-- The exact result of a successful construction. -/
lemma construct_ok {o : TileGridOptions} {layers : List LayerDefinition}
    {sheet : SpriteSheet} {tw th : Int}
    (hm : o.mapData = some layers) (hs : o.spriteSheet = some sheet)
    (hw : o.tileWidth = some tw) (hh : o.tileHeight = some th)
    (hL : layers ≠ []) (htw : 0 < tw) (hth : 0 < th) :
    construct o =
      .ok ({ tileWidth := tw
             tileHeight := th
             chunkSize := o.chunkSize.getD 16
             cullingMargin := o.cullingMargin.getD 2
             layersMap := layersLookup o.tileToIdTextureKey sheet tw th layers
             children := rootChildren o.tileToIdTextureKey sheet tw th layers
             sortableChildren := true },
           allWarnings o.tileToIdTextureKey sheet tw th layers) := by
  unfold construct
  rw [hm, hs, hw, hh]
  simp [List.isEmpty_iff, hL, not_le.mpr htw, not_le.mpr hth]

/-- Inserting `x` into `l` leaves the sublist of any fixed effective
z-index unchanged, except that `x` is prepended to its own class (the
elements passed over all have a strictly smaller key). -/
lemma filter_orderedInsert (k : Int) (x : LayerDefinition) (l : List LayerDefinition) :
    (List.orderedInsert layerLe x l).filter (fun a => decide (a.zIndexEff = k)) =
      if x.zIndexEff = k then
        x :: l.filter (fun a => decide (a.zIndexEff = k))
      else l.filter (fun a => decide (a.zIndexEff = k)) := by
  induction l with
  | nil => by_cases hx : x.zIndexEff = k <;> simp [hx]
  | cons b t ih =>
    by_cases hle : layerLe x b
    · by_cases hx : x.zIndexEff = k <;> simp [List.orderedInsert, hle, hx]
    · have hbx : b.zIndexEff < x.zIndexEff := by
        have := not_le.mp hle
        exact this
      by_cases hx : x.zIndexEff = k
      · have hb : ¬b.zIndexEff = k := by omega
        simp [List.orderedInsert, hle, hx, hb, ih]
      · by_cases hb : b.zIndexEff = k <;> simp [List.orderedInsert, hle, hx, hb, ih]

/-- The stable sort preserves each equal-key class verbatim. -/
lemma filter_sortLayers (k : Int) (l : List LayerDefinition) :
    (sortLayers l).filter (fun a => decide (a.zIndexEff = k)) =
      l.filter (fun a => decide (a.zIndexEff = k)) := by
  induction l with
  | nil => rfl
  | cons b t ih =>
    have hsort : sortLayers (b :: t) = List.orderedInsert layerLe b (sortLayers t) := rfl
    rw [hsort, filter_orderedInsert]
    by_cases hb : b.zIndexEff = k <;> simp [hb, ih]

/-- Inverting a successful construction: the validity side conditions and
the exact content of the grid. -/
lemma construct_ok_inv {o : TileGridOptions} {g : Grid} {ws : List Warning}
    {layers : List LayerDefinition} {sheet : SpriteSheet} {tw th : Int}
    (hm : o.mapData = some layers) (hs : o.spriteSheet = some sheet)
    (hw : o.tileWidth = some tw) (hh : o.tileHeight = some th)
    (hok : construct o = .ok (g, ws)) :
    layers ≠ [] ∧ 0 < tw ∧ 0 < th ∧
    g.tileWidth = tw ∧ g.tileHeight = th ∧
    g.children = rootChildren o.tileToIdTextureKey sheet tw th layers ∧
    g.layersMap = layersLookup o.tileToIdTextureKey sheet tw th layers ∧
    ws = allWarnings o.tileToIdTextureKey sheet tw th layers := by
  unfold construct at hok
  rw [hm, hs, hw, hh] at hok
  repeat' split at hok <;> simp_all
  obtain ⟨hg, hws⟩ := hok
  subst hg
  simp_all [List.isEmpty_iff]

/-- Every sprite emitted by the column loop comes from a non-empty cell
`cidx ≥ col` of the row, resolves in the sheet, and sits at
`(cidx * tileWidth, row * tileHeight)` with the cell size. -/
lemma renderCells_sprites_mem (keyFn : Option (Int → String)) (sheet : SpriteSheet)
    (tw th : Int) (row : Nat) :
    ∀ (cells : List (Option Int)) (col : Nat) (s : Sprite),
      s ∈ (renderCells keyFn sheet tw th row col cells).sprites →
      ∃ (cidx : Nat) (t : Int) (tex : Texture),
        col ≤ cidx ∧ cells[cidx - col]? = some (some t) ∧ t ≠ 0 ∧
        sheet.textures (textureKeyFor keyFn t) = some tex ∧
        s = ⟨tex, (cidx : Int) * tw, (row : Int) * th, tw, th⟩ := by
  intro cells
  induction cells with
  | nil => intro col s hs; simp [renderCells] at hs
  | cons cell rest ih =>
    intro col s hs
    have shift : ∀ cidx, col + 1 ≤ cidx →
        (cell :: rest)[cidx - col]? = rest[cidx - (col + 1)]? := by
      intro cidx hge
      have hd : cidx - col = (cidx - (col + 1)) + 1 := by omega
      rw [hd]
      simp
    cases cell with
    | none =>
      simp only [renderCells] at hs
      obtain ⟨cidx, t, tex, hge, hget, hne, htex, rfl⟩ := ih (col + 1) s hs
      exact ⟨cidx, t, tex, by omega, (shift cidx hge).symm ▸ hget, hne, htex, rfl⟩
    | some t0 =>
      simp only [renderCells] at hs
      by_cases h0 : t0 = 0
      · rw [if_pos h0] at hs
        obtain ⟨cidx, t, tex, hge, hget, hne, htex, rfl⟩ := ih (col + 1) s hs
        exact ⟨cidx, t, tex, by omega, (shift cidx hge).symm ▸ hget, hne, htex, rfl⟩
      · rw [if_neg h0] at hs
        cases htex : sheet.textures (textureKeyFor keyFn t0) with
        | none =>
          simp only [createTileSprite, htex] at hs
          obtain ⟨cidx, t, tex, hge, hget, hne, htex', rfl⟩ := ih (col + 1) s hs
          exact ⟨cidx, t, tex, by omega, (shift cidx hge).symm ▸ hget, hne, htex', rfl⟩
        | some tex =>
          simp only [createTileSprite, htex, List.mem_cons] at hs
          rcases hs with rfl | hs
          · exact ⟨col, t0, tex, le_refl col, by simp, h0, htex, rfl⟩
          · obtain ⟨cidx, t, tex', hge, hget, hne, htex', rfl⟩ := ih (col + 1) s hs
            exact ⟨cidx, t, tex', by omega, (shift cidx hge).symm ▸ hget, hne, htex', rfl⟩

/-- Within one row the emitted sprites have strictly increasing `x`. -/
lemma renderCells_sprites_pairwise (keyFn : Option (Int → String)) (sheet : SpriteSheet)
    (tw th : Int) (row : Nat) (htw : 0 < tw) :
    ∀ (cells : List (Option Int)) (col : Nat),
      List.Pairwise (fun a b : Sprite => a.x < b.x)
        (renderCells keyFn sheet tw th row col cells).sprites := by
  intro cells
  induction cells with
  | nil => intro col; simp [renderCells]
  | cons cell rest ih =>
    intro col
    cases cell with
    | none => simp only [renderCells]; exact ih (col + 1)
    | some t0 =>
      simp only [renderCells]
      by_cases h0 : t0 = 0
      · rw [if_pos h0]; exact ih (col + 1)
      · rw [if_neg h0]
        cases htex : sheet.textures (textureKeyFor keyFn t0) with
        | none => simp only [createTileSprite, htex]; exact ih (col + 1)
        | some tex =>
          simp only [createTileSprite, htex]
          refine List.Pairwise.cons ?_ (ih (col + 1))
          intro b hb
          obtain ⟨cidx, t, tex', hge, -, -, -, rfl⟩ :=
            renderCells_sprites_mem keyFn sheet tw th row rest (col + 1) b hb
          show (col : Int) * tw < (cidx : Int) * tw
          have hlt : (col : Int) < (cidx : Int) := by exact_mod_cast Nat.lt_of_lt_of_le (Nat.lt_succ_self col) hge
          exact mul_lt_mul_of_pos_right hlt htw

/-- Every sprite emitted by the row loop comes from a non-empty resolved
cell `(r, cidx)` with `r ≥ row` and sits at the cell's position with the
cell size. -/
lemma renderRows_sprites_mem (keyFn : Option (Int → String)) (sheet : SpriteSheet)
    (tw th : Int) :
    ∀ (rs : List (Option (List (Option Int)))) (row : Nat) (s : Sprite),
      s ∈ (renderRows keyFn sheet tw th row rs).sprites →
      ∃ (r : Nat) (rowData : List (Option Int)) (cidx : Nat) (t : Int) (tex : Texture),
        row ≤ r ∧ rs[r - row]? = some (some rowData) ∧
        rowData[cidx]? = some (some t) ∧ t ≠ 0 ∧
        sheet.textures (textureKeyFor keyFn t) = some tex ∧
        s = ⟨tex, (cidx : Int) * tw, (r : Int) * th, tw, th⟩ := by
  intro rs
  induction rs with
  | nil => intro row s hs; simp [renderRows] at hs
  | cons r0 rest ih =>
    intro row s hs
    have shift : ∀ r, row + 1 ≤ r → (r0 :: rest)[r - row]? = rest[r - (row + 1)]? := by
      intro r hge
      have hd : r - row = (r - (row + 1)) + 1 := by omega
      rw [hd]
      simp
    cases r0 with
    | none =>
      simp only [renderRows] at hs
      obtain ⟨r, rowData, cidx, t, tex, hge, hr, hc, hne, htex, rfl⟩ := ih (row + 1) s hs
      exact ⟨r, rowData, cidx, t, tex, by omega, (shift r hge).symm ▸ hr, hc, hne, htex, rfl⟩
    | some rowData =>
      simp only [renderRows, RenderResult.merge, List.mem_append] at hs
      rcases hs with hs | hs
      · obtain ⟨cidx, t, tex, -, hget, hne, htex, rfl⟩ :=
          renderCells_sprites_mem keyFn sheet tw th row rowData 0 s hs
        exact ⟨row, rowData, cidx, t, tex, le_refl row, by simp, by simpa using hget, hne, htex, rfl⟩
      · obtain ⟨r, rowData', cidx, t, tex, hge, hr, hc, hne, htex, rfl⟩ := ih (row + 1) s hs
        exact ⟨r, rowData', cidx, t, tex, by omega, (shift r hge).symm ▸ hr, hc, hne, htex, rfl⟩

/-- The row loop emits sprites in row-major order: strictly increasing
rows, and within a row strictly increasing columns. -/
lemma renderRows_sprites_pairwise (keyFn : Option (Int → String)) (sheet : SpriteSheet)
    (tw th : Int) (htw : 0 < tw) (hth : 0 < th) :
    ∀ (rs : List (Option (List (Option Int)))) (row : Nat),
      List.Pairwise (fun a b : Sprite => a.y < b.y ∨ (a.y = b.y ∧ a.x < b.x))
        (renderRows keyFn sheet tw th row rs).sprites := by
  intro rs
  induction rs with
  | nil => intro row; simp [renderRows]
  | cons r0 rest ih =>
    intro row
    cases r0 with
    | none => simp only [renderRows]; exact ih (row + 1)
    | some rowData =>
      simp only [renderRows, RenderResult.merge]
      refine List.pairwise_append.mpr ⟨?_, ih (row + 1), ?_⟩
      · refine List.Pairwise.imp_of_mem ?_
          (renderCells_sprites_pairwise keyFn sheet tw th row htw rowData 0)
        intro a b ha hb hab
        obtain ⟨ca, ta, xa, h1a, h2a, h3a, h4a, rfl⟩ :=
          renderCells_sprites_mem keyFn sheet tw th row rowData 0 a ha
        obtain ⟨cb, tb, xb, h1b, h2b, h3b, h4b, rfl⟩ :=
          renderCells_sprites_mem keyFn sheet tw th row rowData 0 b hb
        exact Or.inr ⟨rfl, hab⟩
      · intro a ha b hb
        obtain ⟨ca, ta, xa, h1a, h2a, h3a, h4a, rfl⟩ :=
          renderCells_sprites_mem keyFn sheet tw th row rowData 0 a ha
        obtain ⟨r, rdb, cb, tb, xb, hge, h1b, h2b, h3b, h4b, rfl⟩ :=
          renderRows_sprites_mem keyFn sheet tw th rest (row + 1) b hb
        refine Or.inl ?_
        show (row : Int) * th < (r : Int) * th
        have hlt : (row : Int) < (r : Int) := by
          exact_mod_cast Nat.lt_of_lt_of_le (Nat.lt_succ_self row) hge
        exact mul_lt_mul_of_pos_right hlt hth

/-- The column loop is compositional: a row splits into the render of its
prefix followed by the render of its suffix at the shifted column. -/
lemma renderCells_append (keyFn : Option (Int → String)) (sheet : SpriteSheet)
    (tw th : Int) (row : Nat) :
    ∀ (pre suf : List (Option Int)) (col : Nat),
      renderCells keyFn sheet tw th row col (pre ++ suf) =
        (renderCells keyFn sheet tw th row col pre).merge
          (renderCells keyFn sheet tw th row (col + pre.length) suf) := by
  intro pre
  induction pre with
  | nil => intro suf col; simp [renderCells, RenderResult.merge]
  | cons cell rest ih =>
    intro suf col
    have harith : col + 1 + rest.length = col + (rest.length + 1) := by omega
    cases cell with
    | none =>
      simp only [List.cons_append, renderCells, List.length_cons, List.append_eq]
      rw [ih suf (col + 1), harith]
    | some t0 =>
      simp only [List.cons_append, renderCells, List.length_cons, List.append_eq]
      by_cases h0 : t0 = 0
      · rw [if_pos h0, if_pos h0, ih suf (col + 1), harith]
      · rw [if_neg h0, if_neg h0]
        cases htex : sheet.textures (textureKeyFor keyFn t0) with
        | none =>
          simp only [createTileSprite, htex]
          rw [ih suf (col + 1), harith]
          simp [RenderResult.merge]
        | some tex =>
          simp only [createTileSprite, htex]
          rw [ih suf (col + 1), harith]
          simp [RenderResult.merge]

lemma mapGet_mapSet_self (m : List (String × Container)) (k : String) (v : Container) :
    mapGet (mapSet m k v) k = some v := by
  induction m with
  | nil => simp [mapSet, mapGet]
  | cons p rest ih => by_cases h : p.1 = k <;> simp [mapSet, mapGet, h, ih]

lemma mapGet_mapSet_other (m : List (String × Container)) (k k' : String) (v : Container)
    (hk : k ≠ k') : mapGet (mapSet m k v) k' = mapGet m k' := by
  induction m with
  | nil => simp [mapSet, mapGet, hk]
  | cons p rest ih =>
    by_cases h : p.1 = k
    · simp [mapSet, mapGet, h, hk]
    · by_cases h' : p.1 = k' <;> simp [mapSet, mapGet, h, h', Ne.symm hk, ih]

/-- The name-keyed lookup built by folding `mapSet` retains, for each key,
the container of the last matching layer in processing order (the first
match of the reversed processing list). -/
lemma mapGet_foldl_mapSet (keyFn : Option (Int → String)) (sheet : SpriteSheet)
    (tw th : Int) :
    ∀ (L : List LayerDefinition) (m : List (String × Container)) (k : String),
      mapGet (L.foldl (fun acc l => mapSet acc l.name (layerContainer keyFn sheet tw th l)) m) k =
        (L.reverse.find? (fun l => decide (l.name = k))).elim (mapGet m k)
          (fun l => some (layerContainer keyFn sheet tw th l)) := by
  intro L
  induction L with
  | nil => intro m k; simp
  | cons a T ih =>
    intro m k
    rw [List.foldl_cons, ih, List.reverse_cons, List.find?_append]
    cases hT : T.reverse.find? (fun l => decide (l.name = k)) with
    | some lT => simp
    | none =>
      by_cases ha : a.name = k
      · subst ha
        simp [mapGet_mapSet_self]
      · simp [ha, mapGet_mapSet_other m a.name k _ ha]

/-- Inserting the same element into one list written with two middles of
equal key: the insertion point is identical. -/
lemma orderedInsert_middle_pair (x l l' : LayerDefinition)
    (hk : l.zIndexEff = l'.zIndexEff) :
    ∀ (P Q : List LayerDefinition),
      ∃ P' Q', List.orderedInsert layerLe x (P ++ l :: Q) = P' ++ l :: Q' ∧
               List.orderedInsert layerLe x (P ++ l' :: Q) = P' ++ l' :: Q' := by
  intro P
  induction P with
  | nil =>
    intro Q
    by_cases h : layerLe x l
    · have h' : layerLe x l' := by
        unfold layerLe at h ⊢
        omega
      exact ⟨[x], Q, by simp [List.orderedInsert, h], by simp [List.orderedInsert, h']⟩
    · have h' : ¬layerLe x l' := by
        unfold layerLe at h ⊢
        omega
      exact ⟨[], List.orderedInsert layerLe x Q,
        by simp [List.orderedInsert, h], by simp [List.orderedInsert, h']⟩
  | cons p P2 ih =>
    intro Q
    by_cases h : layerLe x p
    · exact ⟨x :: p :: P2, Q, by simp [List.orderedInsert, h], by simp [List.orderedInsert, h]⟩
    · obtain ⟨P', Q', h1, h2⟩ := ih Q
      exact ⟨p :: P', Q', by simp [List.orderedInsert, h, h1], by simp [List.orderedInsert, h, h2]⟩

/-- Inserting two elements of equal key into the same sorted list places
them at the same position. -/
lemma orderedInsert_pair_base (l l' : LayerDefinition)
    (hk : l.zIndexEff = l'.zIndexEff) :
    ∀ S : List LayerDefinition,
      ∃ P Q, List.orderedInsert layerLe l S = P ++ l :: Q ∧
             List.orderedInsert layerLe l' S = P ++ l' :: Q := by
  intro S
  induction S with
  | nil => exact ⟨[], [], rfl, rfl⟩
  | cons b T ih =>
    by_cases h : layerLe l b
    · have h' : layerLe l' b := by
        unfold layerLe at h ⊢
        omega
      exact ⟨[], b :: T, by simp [List.orderedInsert, h], by simp [List.orderedInsert, h']⟩
    · have h' : ¬layerLe l' b := by
        unfold layerLe at h ⊢
        omega
      obtain ⟨P, Q, h1, h2⟩ := ih
      exact ⟨b :: P, Q, by simp [List.orderedInsert, h, h1], by simp [List.orderedInsert, h', h2]⟩

/-- Replacing one layer by another with the same effective z-index moves
neither it nor any other layer in the stable sort: both sorts agree
outside the one position. -/
lemma sortLayers_replace (l l' : LayerDefinition) (hk : l.zIndexEff = l'.zIndexEff) :
    ∀ (A B : List LayerDefinition),
      ∃ P Q, sortLayers (A ++ l :: B) = P ++ l :: Q ∧
             sortLayers (A ++ l' :: B) = P ++ l' :: Q := by
  intro A
  induction A with
  | nil =>
    intro B
    obtain ⟨P, Q, h1, h2⟩ := orderedInsert_pair_base l l' hk (sortLayers B)
    exact ⟨P, Q, h1, h2⟩
  | cons a A2 ih =>
    intro B
    obtain ⟨P, Q, h1, h2⟩ := ih B
    obtain ⟨P', Q', g1, g2⟩ := orderedInsert_middle_pair a l l' hk P Q
    have e1 : sortLayers ((a :: A2) ++ l :: B) =
        List.orderedInsert layerLe a (sortLayers (A2 ++ l :: B)) := rfl
    have e2 : sortLayers ((a :: A2) ++ l' :: B) =
        List.orderedInsert layerLe a (sortLayers (A2 ++ l' :: B)) := rfl
    exact ⟨P', Q', by rw [e1, h1]; exact g1, by rw [e2, h2]; exact g2⟩

/-- A warning emitted while rendering any processed layer ends up in the
constructed grid's warning stream. -/
lemma mem_allWarnings (keyFn : Option (Int → String)) (sheet : SpriteSheet)
    (tw th : Int) (layers : List LayerDefinition) (l : LayerDefinition)
    (hl : l ∈ sortLayers layers) (w : Warning)
    (hw : w ∈ (renderLayer keyFn sheet tw th l).warnings) :
    w ∈ allWarnings keyFn sheet tw th layers := by
  unfold allWarnings
  revert hl
  generalize sortLayers layers = L
  intro hl
  induction L with
  | nil => cases hl
  | cons a T ih =>
    rcases List.mem_cons.mp hl with rfl | h
    · exact List.mem_append.mpr (Or.inl hw)
    · exact List.mem_append.mpr (Or.inr (ih h))

/-! ## Claims -/

/-- **C1.** In every successfully constructed grid the layer containers
appear in the root's child order sorted ascending by effective `zIndex`
(default 0), and the sort is stable: for every key `k`, the sublist of
children with that effective z-index is exactly the input layers with that
effective z-index, in input order, rendered. -/
theorem spec_C1_layers_sorted_stable (o : TileGridOptions) (g : Grid)
    (ws : List Warning) (layers : List LayerDefinition) (sheet : SpriteSheet)
    (tw th : Int)
    (hm : o.mapData = some layers) (hs : o.spriteSheet = some sheet)
    (hw : o.tileWidth = some tw) (hh : o.tileHeight = some th)
    (hok : construct o = .ok (g, ws)) :
    List.Sorted (fun a b : Int => a ≤ b) (g.children.map Container.zIndex) ∧
    ∀ k : Int, g.children.filter (fun c => decide (c.zIndex = k)) =
      (layers.filter (fun l => decide (l.zIndexEff = k))).map
        (layerContainer o.tileToIdTextureKey sheet tw th) := by
  obtain ⟨-, -, -, -, -, hch, -, -⟩ := construct_ok_inv hm hs hw hh hok
  rw [hch]
  unfold rootChildren
  constructor
  · rw [List.map_map]
    have hz : (Container.zIndex ∘ layerContainer o.tileToIdTextureKey sheet tw th) =
        LayerDefinition.zIndexEff := rfl
    rw [hz]
    exact List.pairwise_map.mpr (List.sorted_insertionSort layerLe layers)
  · intro k
    rw [List.filter_map]
    have hp : ((fun c => decide (c.zIndex = k)) ∘ layerContainer o.tileToIdTextureKey sheet tw th) =
        fun l => decide (l.zIndexEff = k) := rfl
    rw [hp, filter_sortLayers]

/-- **C1 witness.** The spec's example `fg:10, bg:-10, mid:(default 0)`
comes out in child order `bg, mid, fg`, and the `k = 0` class is `mid`
alone, in input order. -/
theorem spec_C1_layers_sorted_stable_witness :
    List.Sorted (fun a b : Int => a ≤ b)
      ((rootChildren none ⟨fun _ => none⟩ 32 32
        [{ name := "fg", zIndex := some 10 }, { name := "bg", zIndex := some (-10) },
         { name := "mid" }]).map Container.zIndex) ∧
    (rootChildren none ⟨fun _ => none⟩ 32 32
        [{ name := "fg", zIndex := some 10 }, { name := "bg", zIndex := some (-10) },
         { name := "mid" }]).filter (fun c => decide (c.zIndex = 0)) =
      ([{ name := "fg", zIndex := some 10 }, { name := "bg", zIndex := some (-10) },
        ({ name := "mid" } : LayerDefinition)].filter
          (fun l => decide (l.zIndexEff = 0))).map
        (layerContainer none ⟨fun _ => none⟩ 32 32) := by
  have h := spec_C1_layers_sorted_stable
    { mapData := some [{ name := "fg", zIndex := some 10 },
                       { name := "bg", zIndex := some (-10) }, { name := "mid" }],
      spriteSheet := some ⟨fun _ => none⟩,
      tileWidth := some 32, tileHeight := some 32 }
    _ _ _ ⟨fun _ => none⟩ 32 32 rfl rfl rfl rfl rfl
  exact ⟨h.1, h.2 0⟩

/-- **C2.** Every leaf sprite of a constructed grid belongs to some
layer's render, has its size overridden to the cell size regardless of the
bound texture, sits at `(c * cellWidth, r * cellHeight)` for the non-empty
grid cell `(r, c)` it was produced from, and the sprites of each layer
container are appended in row-major order (rows ascending, columns
ascending within a row). -/
theorem spec_C2_cell_geometry (o : TileGridOptions) (g : Grid) (ws : List Warning)
    (layers : List LayerDefinition) (sheet : SpriteSheet) (tw th : Int)
    (hm : o.mapData = some layers) (hs : o.spriteSheet = some sheet)
    (hw : o.tileWidth = some tw) (hh : o.tileHeight = some th)
    (hok : construct o = .ok (g, ws)) :
    (∀ c ∈ g.children, ∃ l, l ∈ layers ∧
      c = layerContainer o.tileToIdTextureKey sheet tw th l) ∧
    (∀ l : LayerDefinition,
      ∀ s ∈ (renderLayer o.tileToIdTextureKey sheet tw th l).sprites,
      s.width = tw ∧ s.height = th ∧
      ∃ (data : List (Option (List (Option Int)))) (r : Nat)
        (rowData : List (Option Int)) (cidx : Nat) (t : Int),
        l.data = some data ∧ data[r]? = some (some rowData) ∧
        rowData[cidx]? = some (some t) ∧ t ≠ 0 ∧
        s.x = (cidx : Int) * tw ∧ s.y = (r : Int) * th) ∧
    (∀ c ∈ g.children,
      List.Pairwise (fun a b : Sprite => a.y < b.y ∨ (a.y = b.y ∧ a.x < b.x))
        c.children) := by
  obtain ⟨-, htw, hth, -, -, hch, -, -⟩ := construct_ok_inv hm hs hw hh hok
  refine ⟨?_, ?_, ?_⟩
  · intro c hc
    rw [hch] at hc
    unfold rootChildren at hc
    obtain ⟨l, hl, rfl⟩ := List.mem_map.mp hc
    exact ⟨l, (List.perm_insertionSort layerLe layers).subset hl, rfl⟩
  · intro l s hsp
    cases hd : l.data with
    | none => simp only [renderLayer, hd] at hsp; simp at hsp
    | some data =>
      simp only [renderLayer, hd] at hsp
      by_cases hlen : data.length = 0
      · rw [if_pos hlen] at hsp; simp at hsp
      · rw [if_neg hlen] at hsp
        obtain ⟨r, rowData, cidx, t, tex, -, hr, hc2, hne, -, rfl⟩ :=
          renderRows_sprites_mem o.tileToIdTextureKey sheet tw th data 0 s hsp
        exact ⟨rfl, rfl, data, r, rowData, cidx, t, rfl, by simpa using hr, hc2, hne, rfl, rfl⟩
  · intro c hc
    rw [hch] at hc
    unfold rootChildren at hc
    obtain ⟨l, -, rfl⟩ := List.mem_map.mp hc
    have hlc : (layerContainer o.tileToIdTextureKey sheet tw th l).children =
        (renderLayer o.tileToIdTextureKey sheet tw th l).sprites := rfl
    rw [hlc]
    cases hd : l.data with
    | none => simp [renderLayer, hd]
    | some data =>
      simp only [renderLayer, hd]
      by_cases hlen : data.length = 0
      · rw [if_pos hlen]; simp
      · rw [if_neg hlen]
        exact renderRows_sprites_pairwise o.tileToIdTextureKey sheet tw th htw hth data 0

/-- **C2 witness.** The spec's example: `cellWidth = cellHeight = 32`,
grid `[[1,2],[3,4]]` with textures of assorted native sizes, gives four
sprites at `(0,0), (32,0), (0,32), (32,32)` in creation order, each forced
to 32×32, in row-major pairwise order. -/
theorem spec_C2_cell_geometry_witness :
    ((renderLayer none
        ⟨fun k => if k = "1" then some ⟨1, 100, 50⟩ else if k = "2" then some ⟨2, 7, 9⟩
          else if k = "3" then some ⟨3, 3, 3⟩ else if k = "4" then some ⟨4, 64, 64⟩
          else none⟩ 32 32
        { name := "main",
          data := some [some [some 1, some 2], some [some 3, some 4]] }).sprites.map
      (fun s => (s.x, s.y, s.width, s.height)) =
      [(0, 0, 32, 32), (32, 0, 32, 32), (0, 32, 32, 32), (32, 32, 32, 32)]) ∧
    List.Pairwise (fun a b : Sprite => a.y < b.y ∨ (a.y = b.y ∧ a.x < b.x))
      (layerContainer none
        ⟨fun k => if k = "1" then some ⟨1, 100, 50⟩ else if k = "2" then some ⟨2, 7, 9⟩
          else if k = "3" then some ⟨3, 3, 3⟩ else if k = "4" then some ⟨4, 64, 64⟩
          else none⟩ 32 32
        { name := "main",
          data := some [some [some 1, some 2], some [some 3, some 4]] }).children := by
  constructor
  · rfl
  · exact (spec_C2_cell_geometry
      { mapData := some [{ name := "main",
                           data := some [some [some 1, some 2], some [some 3, some 4]] }],
        spriteSheet := some ⟨fun k => if k = "1" then some ⟨1, 100, 50⟩
          else if k = "2" then some ⟨2, 7, 9⟩ else if k = "3" then some ⟨3, 3, 3⟩
          else if k = "4" then some ⟨4, 64, 64⟩ else none⟩,
        tileWidth := some 32, tileHeight := some 32 }
      _ _ _ ⟨fun k => if k = "1" then some ⟨1, 100, 50⟩ else if k = "2" then some ⟨2, 7, 9⟩
          else if k = "3" then some ⟨3, 3, 3⟩ else if k = "4" then some ⟨4, 64, 64⟩
          else none⟩ 32 32 rfl rfl rfl rfl rfl).2.2 _ (List.Mem.head _)

/-- **C3.** A cell holding tile index `0` or an absent entry (a hole in a
ragged row) is skipped unconditionally: the row renders exactly as if the
cell were not there — it contributes no sprite, no warning, and no texture
lookup — and the spec's example grid `[[1,0,2],[0,3,0]]` over keys
`"1","2","3"` yields exactly 3 leaf elements. -/
theorem spec_C3_empty_cells_skipped (keyFn : Option (Int → String))
    (sheet : SpriteSheet) (tw th : Int) (row col : Nat)
    (pre suf : List (Option Int)) (c : Option Int)
    (hc : c = none ∨ c = some 0) :
    renderCells keyFn sheet tw th row col (pre ++ c :: suf) =
      (renderCells keyFn sheet tw th row col pre).merge
        (renderCells keyFn sheet tw th row (col + pre.length + 1) suf) ∧
    Except.map (fun gw => (gw.1.children.map (fun ct => ct.children.length)).sum)
      (construct
        { mapData := some [{ name := "main",
                             data := some [some [some 1, some 0, some 2],
                                           some [some 0, some 3, some 0]] }],
          spriteSheet := some ⟨fun k => if k = "1" then some ⟨1, 8, 8⟩
            else if k = "2" then some ⟨2, 8, 8⟩ else if k = "3" then some ⟨3, 8, 8⟩
            else none⟩,
          tileWidth := some 16, tileHeight := some 16 }) = .ok 3 := by
  refine ⟨?_, rfl⟩
  rw [renderCells_append keyFn sheet tw th row pre (c :: suf) col]
  rcases hc with rfl | rfl
  · simp only [renderCells]
  · simp [renderCells]

/-- **C3 witness.** Skipping instantiated at a concrete row
`[5, 0, 7]` (the `0` cell contributes nothing at all). -/
theorem spec_C3_empty_cells_skipped_witness :
    renderCells none ⟨fun _ => some ⟨0, 8, 8⟩⟩ 16 16 0 0
        ([some 5] ++ some 0 :: [some 7]) =
      (renderCells none ⟨fun _ => some ⟨0, 8, 8⟩⟩ 16 16 0 0 [some 5]).merge
        (renderCells none ⟨fun _ => some ⟨0, 8, 8⟩⟩ 16 16 0 (0 + [some 5].length + 1)
          [some 7]) :=
  (spec_C3_empty_cells_skipped none ⟨fun _ => some ⟨0, 8, 8⟩⟩ 16 16 0 0
    [some 5] [some 7] (some 0) (Or.inr rfl)).1

/-- **C4.** Construction fails with the `mapData` error when the layer list
is absent or empty; with several fatal violations at once the reported
error is the first-checked one, in the fixed order `mapData`,
`spriteSheet`, `tileWidth`, `tileHeight`; when none of them holds,
validation passes and construction proceeds. -/
theorem spec_C4_validation_order (o : TileGridOptions) :
    ((o.mapData = none ∨ o.mapData = some []) →
      construct o = .error .mapDataRequired) ∧
    (∀ layers, o.mapData = some layers → layers ≠ [] → o.spriteSheet = none →
      construct o = .error .spriteSheetRequired) ∧
    (∀ layers sheet, o.mapData = some layers → layers ≠ [] →
      o.spriteSheet = some sheet →
      (o.tileWidth = none ∨ ∃ tw, o.tileWidth = some tw ∧ tw ≤ 0) →
      construct o = .error .tileWidthMustBePositive) ∧
    (∀ layers sheet tw, o.mapData = some layers → layers ≠ [] →
      o.spriteSheet = some sheet → o.tileWidth = some tw → 0 < tw →
      (o.tileHeight = none ∨ ∃ th, o.tileHeight = some th ∧ th ≤ 0) →
      construct o = .error .tileHeightMustBePositive) ∧
    (∀ layers sheet tw th, o.mapData = some layers → layers ≠ [] →
      o.spriteSheet = some sheet → o.tileWidth = some tw → 0 < tw →
      o.tileHeight = some th → 0 < th → ∃ gw, construct o = .ok gw) := by
  refine ⟨?_, ?_, ?_, ?_, ?_⟩
  · rintro (hm | hm) <;> simp [construct, hm]
  · intro layers hm hL hs
    unfold construct
    rw [hm, hs]
    simp [List.isEmpty_iff, hL]
  · rintro layers sheet hm hL hs hw
    unfold construct
    rw [hm, hs]
    rcases hw with hw | ⟨tw, hw, htw⟩
    · rw [hw]; simp [List.isEmpty_iff, hL]
    · rw [hw]; simp [List.isEmpty_iff, hL, htw]
  · rintro layers sheet tw hm hL hs hw htw hh
    unfold construct
    rw [hm, hs, hw]
    rcases hh with hh | ⟨th, hh, hth⟩
    · rw [hh]; simp [List.isEmpty_iff, hL, not_le.mpr htw]
    · rw [hh]; simp [List.isEmpty_iff, hL, not_le.mpr htw, hth]
  · intro layers sheet tw th hm hL hs hw htw hh hth
    exact ⟨_, construct_ok hm hs hw hh hL htw hth⟩

/-- **C4 witness.** A configuration violating every rule at once reports
the `mapData` error, and a fully valid one constructs successfully. -/
theorem spec_C4_validation_order_witness :
    construct { mapData := none, spriteSheet := none, tileWidth := some 0,
                tileHeight := some (-1) } = .error .mapDataRequired ∧
    ∃ gw, construct { mapData := some [{ name := "bg" }],
                      spriteSheet := some ⟨fun _ => none⟩,
                      tileWidth := some 32, tileHeight := some 32 } = .ok gw := by
  constructor
  · exact (spec_C4_validation_order _).1 (Or.inl rfl)
  · exact (spec_C4_validation_order _).2.2.2.2 [{ name := "bg" }] ⟨fun _ => none⟩ 32 32
      rfl (by simp) rfl rfl (by decide) rfl (by decide)

/-- **C5.** A cell whose tile index resolves to a key absent from the
sprite sheet produces no sprite; the resolver's caller emits a diagnostic
carrying both the computed key and the original tile index; the row's
sprites are exactly those of the same row with that cell emptied (every
other cell unaffected); and no exception propagates — any configuration
passing validation constructs successfully, whatever the sheet contains. -/
theorem spec_C5_missing_texture (keyFn : Option (Int → String))
    (sheet : SpriteSheet) (tw th : Int) (t : Int) (col row : Nat)
    (pre suf : List (Option Int)) (o : TileGridOptions)
    (hmiss : sheet.textures (textureKeyFor keyFn t) = none) (ht : t ≠ 0) :
    createTileSprite keyFn sheet tw th t col row =
      (none, [Warning.textureNotFound (textureKeyFor keyFn t) t],
       [textureKeyFor keyFn t]) ∧
    (renderCells keyFn sheet tw th row col (pre ++ some t :: suf)).sprites =
      (renderCells keyFn sheet tw th row col (pre ++ none :: suf)).sprites ∧
    Warning.textureNotFound (textureKeyFor keyFn t) t ∈
      (renderCells keyFn sheet tw th row col (pre ++ some t :: suf)).warnings ∧
    (validate o = none → ∃ gw, construct o = .ok gw) := by
  have h1 : ∀ c r : Nat, createTileSprite keyFn sheet tw th t c r =
      (none, [Warning.textureNotFound (textureKeyFor keyFn t) t],
       [textureKeyFor keyFn t]) := by
    intro c r
    simp [createTileSprite, hmiss]
  refine ⟨h1 col row, ?_, ?_, fun hv => (construct_ok_iff o).mpr hv⟩
  · rw [renderCells_append keyFn sheet tw th row pre (some t :: suf) col,
        renderCells_append keyFn sheet tw th row pre (none :: suf) col]
    simp only [renderCells, if_neg ht, h1]
    simp [RenderResult.merge]
  · rw [renderCells_append keyFn sheet tw th row pre (some t :: suf) col]
    simp only [renderCells, if_neg ht, h1]
    simp [RenderResult.merge]

/-- **C5 witness.** A `5` over a sheet holding only `"1"`: the cell drops,
both the key `"5"` and the index `5` appear in the diagnostic, the rest of
the row renders as if the cell were empty, and a construction using that
sheet still succeeds. -/
theorem spec_C5_missing_texture_witness :
    createTileSprite none ⟨fun k => if k = "1" then some ⟨1, 8, 8⟩ else none⟩
        16 16 5 0 0 =
      (none, [Warning.textureNotFound "5" 5], ["5"]) ∧
    (renderCells none ⟨fun k => if k = "1" then some ⟨1, 8, 8⟩ else none⟩
        16 16 0 0 ([some 1] ++ some 5 :: [some 1])).sprites =
      (renderCells none ⟨fun k => if k = "1" then some ⟨1, 8, 8⟩ else none⟩
        16 16 0 0 ([some 1] ++ none :: [some 1])).sprites ∧
    Warning.textureNotFound "5" 5 ∈
      (renderCells none ⟨fun k => if k = "1" then some ⟨1, 8, 8⟩ else none⟩
        16 16 0 0 ([some 1] ++ some 5 :: [some 1])).warnings ∧
    ∃ gw, construct
      { mapData := some [{ name := "main", data := some [some [some 1, some 5, some 1]] }],
        spriteSheet := some ⟨fun k => if k = "1" then some ⟨1, 8, 8⟩ else none⟩,
        tileWidth := some 16, tileHeight := some 16 } = .ok gw := by
  have h := spec_C5_missing_texture none
    ⟨fun k => if k = "1" then some ⟨1, 8, 8⟩ else none⟩ 16 16 5 0 0
    [some 1] [some 1]
    { mapData := some [{ name := "main", data := some [some [some 1, some 5, some 1]] }],
      spriteSheet := some ⟨fun k => if k = "1" then some ⟨1, 8, 8⟩ else none⟩,
      tileWidth := some 16, tileHeight := some 16 }
    (by decide) (by decide)
  exact ⟨h.1, h.2.1, h.2.2.1, h.2.2.2 rfl⟩

/-- **C6.** The texture key for a non-empty tile index is the custom
function's return value verbatim when one is configured, otherwise the
decimal string of the index, and `_createTileSprite` looks up exactly that
key in the sprite sheet. -/
theorem spec_C6_texture_key_resolution (keyFn : Option (Int → String))
    (f : Int → String) (sheet : SpriteSheet) (tw th : Int) (t : Int)
    (col row : Nat) :
    (keyFn = some f → textureKeyFor keyFn t = f t) ∧
    (keyFn = none → textureKeyFor keyFn t = toString t) ∧
    (createTileSprite keyFn sheet tw th t col row).2.2 = [textureKeyFor keyFn t] := by
  refine ⟨fun h => by rw [h]; rfl, fun h => by rw [h]; rfl, ?_⟩
  unfold createTileSprite
  cases h : sheet.textures (textureKeyFor keyFn t) <;> simp [h]

/-- **C6 witness.** Index 7 resolves the key `"7"` by default and
`"custom_7"` under `i => "custom_" + i`. -/
theorem spec_C6_texture_key_resolution_witness :
    textureKeyFor none 7 = "7" ∧
    textureKeyFor (some (fun i => "custom_" ++ toString i)) 7 = "custom_7" := by
  constructor
  · exact ((spec_C6_texture_key_resolution none (fun i => "custom_" ++ toString i)
      ⟨fun _ => none⟩ 1 1 7 0 0).2.1 rfl).trans (by decide)
  · exact ((spec_C6_texture_key_resolution (some (fun i => "custom_" ++ toString i))
      (fun i => "custom_" ++ toString i) ⟨fun _ => none⟩ 1 1 7 0 0).1 rfl).trans (by decide)

/-- **C7.** A layer whose grid is absent or has zero rows emits the
non-fatal "no tile data" warning, its container holds zero sprites yet is
still attached to the root, and all other layers are unaffected: replacing
that layer's grid by anything else leaves every other child container
identical and in the same position. -/
theorem spec_C7_empty_layer_grid (o : TileGridOptions) (g : Grid) (ws : List Warning)
    (A B : List LayerDefinition) (l : LayerDefinition) (sheet : SpriteSheet)
    (tw th : Int) (d : Option (List (Option (List (Option Int)))))
    (hm : o.mapData = some (A ++ l :: B)) (hs : o.spriteSheet = some sheet)
    (hw : o.tileWidth = some tw) (hh : o.tileHeight = some th)
    (hok : construct o = .ok (g, ws))
    (hbad : l.data = none ∨ l.data = some []) :
    Warning.layerHasNoTileData l.name ∈ ws ∧
    (layerContainer o.tileToIdTextureKey sheet tw th l).children = [] ∧
    layerContainer o.tileToIdTextureKey sheet tw th l ∈ g.children ∧
    ∀ g' ws',
      construct { o with mapData := some (A ++ { l with data := d } :: B) } =
        .ok (g', ws') →
      ∃ C D, g.children = C ++ layerContainer o.tileToIdTextureKey sheet tw th l :: D ∧
        g'.children =
          C ++ layerContainer o.tileToIdTextureKey sheet tw th { l with data := d } :: D := by
  obtain ⟨-, -, -, -, -, hch, -, hws⟩ := construct_ok_inv hm hs hw hh hok
  have hlmem : l ∈ sortLayers (A ++ l :: B) :=
    ((List.perm_insertionSort layerLe (A ++ l :: B)).mem_iff).mpr (by simp)
  refine ⟨?_, ?_, ?_, ?_⟩
  · rw [hws]
    refine mem_allWarnings o.tileToIdTextureKey sheet tw th (A ++ l :: B) l hlmem _ ?_
    rcases hbad with hb | hb <;> simp [renderLayer, hb]
  · have hc : (layerContainer o.tileToIdTextureKey sheet tw th l).children =
        (renderLayer o.tileToIdTextureKey sheet tw th l).sprites := rfl
    rw [hc]
    rcases hbad with hb | hb <;> simp [renderLayer, hb]
  · rw [hch]
    exact List.mem_map_of_mem _ hlmem
  · intro g' ws' hok'
    obtain ⟨-, -, -, -, -, hch', -, -⟩ :=
      construct_ok_inv (o := { o with mapData := some (A ++ { l with data := d } :: B) })
        rfl hs hw hh hok'
    obtain ⟨P, Q, h1, h2⟩ := sortLayers_replace l { l with data := d } rfl A B
    refine ⟨P.map (layerContainer o.tileToIdTextureKey sheet tw th),
            Q.map (layerContainer o.tileToIdTextureKey sheet tw th), ?_, ?_⟩
    · rw [hch]
      unfold rootChildren
      rw [h1, List.map_append, List.map_cons]
    · rw [hch']
      unfold rootChildren
      rw [h2, List.map_append, List.map_cons]

/-- **C7 witness.** Two layers, the second with an absent grid: the
warning appears, the bad layer's container is empty but attached, and
giving it a real grid leaves the first layer's container untouched at the
same position. -/
theorem spec_C7_empty_layer_grid_witness :
    Warning.layerHasNoTileData "bad" ∈
      allWarnings none ⟨fun _ => some ⟨0, 8, 8⟩⟩ 16 16
        [{ name := "ok", data := some [some [some 1]] }, { name := "bad" }] ∧
    (layerContainer none ⟨fun _ => some ⟨0, 8, 8⟩⟩ 16 16
      ({ name := "bad" } : LayerDefinition)).children = [] ∧
    layerContainer none ⟨fun _ => some ⟨0, 8, 8⟩⟩ 16 16
        ({ name := "bad" } : LayerDefinition) ∈
      rootChildren none ⟨fun _ => some ⟨0, 8, 8⟩⟩ 16 16
        [{ name := "ok", data := some [some [some 1]] }, { name := "bad" }] ∧
    ∃ C D,
      rootChildren none ⟨fun _ => some ⟨0, 8, 8⟩⟩ 16 16
          [{ name := "ok", data := some [some [some 1]] }, { name := "bad" }] =
        C ++ layerContainer none ⟨fun _ => some ⟨0, 8, 8⟩⟩ 16 16
          ({ name := "bad" } : LayerDefinition) :: D ∧
      rootChildren none ⟨fun _ => some ⟨0, 8, 8⟩⟩ 16 16
          [{ name := "ok", data := some [some [some 1]] },
           { name := "bad", data := some [some [some 2]] }] =
        C ++ layerContainer none ⟨fun _ => some ⟨0, 8, 8⟩⟩ 16 16
          { name := "bad", data := some [some [some 2]] } :: D := by
  have h := spec_C7_empty_layer_grid
    { mapData := some [{ name := "ok", data := some [some [some 1]] }, { name := "bad" }],
      spriteSheet := some ⟨fun _ => some ⟨0, 8, 8⟩⟩,
      tileWidth := some 16, tileHeight := some 16 }
    _ _ [{ name := "ok", data := some [some [some 1]] }] [] { name := "bad" }
    ⟨fun _ => some ⟨0, 8, 8⟩⟩ 16 16 (some [some [some 2]])
    rfl rfl rfl rfl rfl (Or.inl rfl)
  exact ⟨h.1, h.2.1, h.2.2.1, h.2.2.2 _ _ rfl⟩

/-- **C10.** The root gains exactly one child container per layer entry
even with duplicated names — every layer contributes its own container —
while the name-keyed lookup answers, for each name, with the container of
the last layer of that name in processing (sorted) order. -/
theorem spec_C10_duplicate_layer_names (o : TileGridOptions) (g : Grid)
    (ws : List Warning) (layers : List LayerDefinition) (sheet : SpriteSheet)
    (tw th : Int)
    (hm : o.mapData = some layers) (hs : o.spriteSheet = some sheet)
    (hw : o.tileWidth = some tw) (hh : o.tileHeight = some th)
    (hok : construct o = .ok (g, ws)) :
    g.children.length = layers.length ∧
    (∀ l ∈ layers, layerContainer o.tileToIdTextureKey sheet tw th l ∈ g.children) ∧
    (∀ k : String, mapGet g.layersMap k =
      ((sortLayers layers).reverse.find? (fun l => decide (l.name = k))).elim none
        (fun l => some (layerContainer o.tileToIdTextureKey sheet tw th l))) := by
  obtain ⟨-, -, -, -, -, hch, hlm, -⟩ := construct_ok_inv hm hs hw hh hok
  refine ⟨?_, ?_, ?_⟩
  · rw [hch]
    unfold rootChildren
    rw [List.length_map]
    exact (List.perm_insertionSort layerLe layers).length_eq
  · intro l hl
    rw [hch]
    exact List.mem_map_of_mem _
      (((List.perm_insertionSort layerLe layers).mem_iff).mpr hl)
  · intro k
    rw [hlm]
    unfold layersLookup
    exact mapGet_foldl_mapSet o.tileToIdTextureKey sheet tw th (sortLayers layers) [] k

/-- **C10 witness.** Two layers both named `"dup"`: the root has two
children, and the lookup returns the container of the later-processed
(higher z-index) one. -/
theorem spec_C10_duplicate_layer_names_witness :
    (rootChildren none ⟨fun _ => some ⟨0, 8, 8⟩⟩ 16 16
      [{ name := "dup", zIndex := some 1, data := some [some [some 1]] },
       { name := "dup", data := some [some [some 2]] }]).length = 2 ∧
    mapGet (layersLookup none ⟨fun _ => some ⟨0, 8, 8⟩⟩ 16 16
      [{ name := "dup", zIndex := some 1, data := some [some [some 1]] },
       { name := "dup", data := some [some [some 2]] }]) "dup" =
      some (layerContainer none ⟨fun _ => some ⟨0, 8, 8⟩⟩ 16 16
        { name := "dup", zIndex := some 1, data := some [some [some 1]] }) := by
  have h := spec_C10_duplicate_layer_names
    { mapData := some [{ name := "dup", zIndex := some 1, data := some [some [some 1]] },
                       { name := "dup", data := some [some [some 2]] }],
      spriteSheet := some ⟨fun _ => some ⟨0, 8, 8⟩⟩,
      tileWidth := some 16, tileHeight := some 16 }
    _ _ _ ⟨fun _ => some ⟨0, 8, 8⟩⟩ 16 16 rfl rfl rfl rfl rfl
  refine ⟨h.1, (h.2.2 "dup").trans ?_⟩
  rfl

/-- **C8.** Construction is atomic: it either fails with exactly the error
that the up-front validation reports — no tree is produced — or validation
passes and a fully built tree is returned; one of the two always holds. -/
theorem spec_C8_atomic_construction (o : TileGridOptions) :
    (∀ e, construct o = .error e ↔ validate o = some e) ∧
    ((∃ gw, construct o = .ok gw) ↔ validate o = none) ∧
    ((∃ e, construct o = .error e) ∨ ∃ gw, construct o = .ok gw) := by
  refine ⟨fun e => construct_error_iff o e, construct_ok_iff o, ?_⟩
  cases h : construct o with
  | error e => exact Or.inl ⟨e, rfl⟩
  | ok gw => exact Or.inr ⟨gw, rfl⟩

/-- **C8 witness.** Atomicity instantiated at a failing and at a valid
configuration. -/
theorem spec_C8_atomic_construction_witness :
    (construct { mapData := some [] } = .error .mapDataRequired ↔
      validate { mapData := some [] } = some .mapDataRequired) ∧
    ((∃ gw, construct { mapData := some [{ name := "bg" }],
                        spriteSheet := some ⟨fun _ => none⟩,
                        tileWidth := some 8, tileHeight := some 8 } = .ok gw) ↔
      validate { mapData := some [{ name := "bg" }],
                 spriteSheet := some ⟨fun _ => none⟩,
                 tileWidth := some 8, tileHeight := some 8 } = none) :=
  ⟨(spec_C8_atomic_construction _).1 .mapDataRequired,
   (spec_C8_atomic_construction _).2.1⟩

/-- **C9.** `chunkSize` and `cullingMargin` are behaviorally inert:
changing them (or leaving them absent) maps a construction result to the
same result with only the two stored fields replaced — identical children,
layer map, warnings, dimensions — and a successful construction stores the
defaults 16 and 2 when they are absent. -/
theorem spec_C9_chunk_culling_inert (o : TileGridOptions) (cs cm : Option Int) :
    construct { o with chunkSize := cs, cullingMargin := cm } =
      Except.map
        (fun gw => ({ gw.1 with chunkSize := cs.getD 16, cullingMargin := cm.getD 2 }, gw.2))
        (construct o) ∧
    (∀ g ws, construct o = .ok (g, ws) →
      g.chunkSize = o.chunkSize.getD 16 ∧ g.cullingMargin = o.cullingMargin.getD 2) := by
  obtain ⟨md, ss, tw, th, fn, a, b⟩ := o
  constructor
  · unfold construct
    dsimp only
    cases md with
    | none => rfl
    | some layers =>
      cases ss <;> cases tw <;> cases th <;> repeat' split <;> simp_all [Except.map]
  · intro g ws h
    unfold construct at h
    cases md with
    | none => simp at h
    | some layers =>
      cases ss <;> cases tw <;> cases th <;> repeat' split at h <;> simp_all
      obtain ⟨hg, -⟩ := h
      subst hg
      exact ⟨rfl, rfl⟩

/-- **C9 witness.** Two configurations differing only in `chunkSize` and
`cullingMargin` produce the same tree, and absent values store 16 and 2. -/
theorem spec_C9_chunk_culling_inert_witness :
    construct { mapData := some [{ name := "bg", data := some [some [some 1]] }],
                spriteSheet := some ⟨fun _ => some ⟨0, 8, 8⟩⟩,
                tileWidth := some 4, tileHeight := some 4,
                chunkSize := some 99, cullingMargin := some 7 } =
      Except.map
        (fun gw => ({ gw.1 with chunkSize := 99, cullingMargin := 7 }, gw.2))
        (construct { mapData := some [{ name := "bg", data := some [some [some 1]] }],
                     spriteSheet := some ⟨fun _ => some ⟨0, 8, 8⟩⟩,
                     tileWidth := some 4, tileHeight := some 4 }) :=
  (spec_C9_chunk_culling_inert
    { mapData := some [{ name := "bg", data := some [some [some 1]] }],
      spriteSheet := some ⟨fun _ => some ⟨0, 8, 8⟩⟩,
      tileWidth := some 4, tileHeight := some 4 } (some 99) (some 7)).1

end PixiTileGrid
